import Mathlib

/-!
Shallow embedding of `src/main.py` (cmus-rpc-py, a poll/format/push bridge
from the cmus music player to a rich-presence service).

The embedding models the Python string primitives used by the program
(`str.replace`, `str.split`, `str.join`, `str.strip`, `os.path.splitext`,
`int(...)`) as executable functions over `List Char` / `String`, and models
Python's dynamic failures (IndexError, NameError on a never-assigned local,
ValueError from `int`) as `Except String` errors.  The polling loop of
`main` is modelled as a fuelled step function producing the list of
externally visible actions (presence pushes and the final connection
release).
-/

set_option autoImplicit false

namespace CmusRpc

/-- Python prefix test on character lists: `pat` occurs at the start of `s`. -/
def prefixMatch : List Char → List Char → Bool
  | [], _ => true
  | _ :: _, [] => false
  | x :: xs, y :: ys => x == y && prefixMatch xs ys

/-- Python `str.replace(pat, rep)` on character lists: leftmost,
non-overlapping, all occurrences.  The `fuel` argument only drives the
structural recursion; with `fuel ≥ s.length` (as used by `pyReplaceStr`)
the fuel never runs out on the patterns this program uses (all nonempty). -/
def pyReplaceFuel (pat rep : List Char) : Nat → List Char → List Char
  | _, [] => []
  | 0, s => s
  | fuel + 1, c :: rest =>
    if prefixMatch pat (c :: rest) then
      rep ++ pyReplaceFuel pat rep fuel ((c :: rest).drop pat.length)
    else
      c :: pyReplaceFuel pat rep fuel rest

/-- Python `s.replace(pat, rep)` on strings. -/
def pyReplaceStr (s pat rep : String) : String :=
  String.mk (pyReplaceFuel pat.data rep.data s.data.length s.data)

/-- Python `str.split(sep)` with an explicit nonempty separator, on
character lists; `acc` is the current segment, reversed. -/
def pySplitFuel (sep : List Char) : Nat → List Char → List Char → List (List Char)
  | _, acc, [] => [acc.reverse]
  | 0, acc, s => [acc.reverse ++ s]
  | fuel + 1, acc, c :: rest =>
    if prefixMatch sep (c :: rest) then
      acc.reverse :: pySplitFuel sep fuel [] ((c :: rest).drop sep.length)
    else
      pySplitFuel sep fuel (c :: acc) rest

/-- Python `s.split(sep)` on strings (explicit separator: keeps empty
segments, e.g. `"".split(x) = [""]`). -/
def pySplitStr (s sep : String) : List String :=
  (pySplitFuel sep.data s.data.length [] s.data).map String.mk

/-- Python `sep.join(l)`. -/
def pyJoin (sep : String) : List String → String
  | [] => ""
  | [x] => x
  | x :: rest => x ++ sep ++ pyJoin sep rest

/-- Python `s.strip(c)` for a single strip character. -/
def pyStripChar (c : Char) (s : String) : String :=
  String.mk (((s.data.dropWhile (fun x => x = c)).reverse.dropWhile (fun x => x = c)).reverse)

/-- Last index of `c` in the list, if any (Python `str.rfind`, successful case). -/
def rfindIdx (c : Char) : List Char → Option Nat
  | [] => none
  | x :: r =>
    match rfindIdx c r with
    | some i => some (i + 1)
    | none => if x = c then some 0 else none

/-- Python `str.rfind(c)`: last index of `c`, or `-1` when absent. -/
def rfindPy (c : Char) (s : List Char) : Int :=
  match rfindIdx c s with
  | some i => (i : Int)
  | none => -1

/-- Digit-string accumulator for `pyInt`. -/
def digitsToNat : List Char → Nat → Option Nat
  | [], acc => some acc
  | c :: r, acc =>
    if c.isDigit then digitsToNat r (acc * 10 + (c.toNat - 48)) else none

/-- Python `int(s)` restricted to the forms this program can feed it: an
optional sign followed by decimal digits; everything else raises
`ValueError` (Python additionally strips surrounding whitespace and allows
digit-group underscores; those forms never arise from `cmus-remote`
output). -/
def pyInt (s : String) : Except String Int :=
  match s.data with
  | [] => Except.error "ValueError"
  | '-' :: ds =>
    if ds = [] then Except.error "ValueError"
    else
      match digitsToNat ds 0 with
      | some n => Except.ok (-(n : Int))
      | none => Except.error "ValueError"
  | '+' :: ds =>
    if ds = [] then Except.error "ValueError"
    else
      match digitsToNat ds 0 with
      | some n => Except.ok ((n : Int))
      | none => Except.error "ValueError"
  | ds =>
    match digitsToNat ds 0 with
    | some n => Except.ok ((n : Int))
    | none => Except.error "ValueError"

/-- Embedding of `to_h_m_s` (src/main.py lines 128-145).  Python's
`divmod` is floor division/remainder, i.e. `Int.fdiv`/`Int.fmod`.  After
the zero-padding assignments the Python variable `hours` holds the string
`"0" ++ str(hours)` whenever `hours < 10`; the subsequent `if hours:`
truthiness test therefore sees a nonempty string (truthy even when the
numeric value is 0) in that case, and a plain integer otherwise. -/
def to_h_m_s (seconds0 : Int) : String :=
  -- minutes, seconds = divmod(seconds, 60)
  let minutes := Int.fdiv seconds0 60
  let seconds := Int.fmod seconds0 60
  -- if minutes: hours, minutes = divmod(minutes, 60)   (hours was initialised 0)
  let hours := if minutes ≠ 0 then Int.fdiv minutes 60 else 0
  let minutes := if minutes ≠ 0 then Int.fmod minutes 60 else minutes
  -- if hours: days, hours = divmod(hours, 24); hours = min(hours, 999)
  let hours := if hours ≠ 0 then min (Int.fmod hours 24) 999 else hours
  -- zero padding (each variable becomes a string when its value is < 10)
  let secondsS := if seconds < 10 then "0" ++ toString seconds else toString seconds
  let minutesS := if minutes < 10 then "0" ++ toString minutes else toString minutes
  let hoursS := if hours < 10 then "0" ++ toString hours else toString hours
  -- Python `if hours:`: tests the padded string when hours < 10, the int otherwise
  let hoursTruthy : Bool := if hours < 10 then hoursS != "" else hours != 0
  if hoursTruthy then hoursS ++ ":" ++ minutesS ++ ":" ++ secondsS
  else minutesS ++ ":" ++ secondsS

/-- Root part of Python `os.path.splitext(p)` (posixpath): the extension is
the suffix starting at the last `'.'` of the final path component, unless
every character between the component start and that dot is itself a dot
(hidden files like `".bashrc"` keep their name). -/
def splitext_root (p : String) : String :=
  let cs := p.data
  let sepIndex := rfindPy '/' cs
  let dotIndex := rfindPy '.' cs
  if sepIndex < dotIndex then
    let stem := (cs.drop (sepIndex + 1).toNat).take (dotIndex - (sepIndex + 1)).toNat
    if stem.any (fun x => x ≠ '.') then String.mk (cs.take dotIndex.toNat) else p
  else p

/-- Embedding of `title_from_path` (src/main.py lines 65-77).  Python's
`song_name[-2]` raises IndexError when the path has fewer than two
segments, modelled as `Except.error`. -/
def title_from_path (path : String) : Except String (String × String) :=
  -- song_name = os.path.splitext(path)[0].strip("/").split("/")
  let song_name := pySplitStr (pyStripChar '/' (splitext_root path)) "/"
  let last := song_name.getLastD ""
  -- song_name_split = song_name[-1].split(" - "), retry with "-"
  let s1 := pySplitStr last " - "
  let song_name_split := if s1.length < 2 then pySplitStr last "-" else s1
  if 2 ≤ song_name_split.length then
    Except.ok (song_name_split.headD "", (song_name_split.drop 1).headD "")
  else
    if 2 ≤ song_name.length then
      Except.ok ((song_name.drop (song_name.length - 2)).headD "", last)
    else
      Except.error "IndexError"

/-- The song-data record built by `cmus_status` (src/main.py lines 116-124);
all fields are strings, exactly as in the Python dict. -/
structure SongData where
  artist : String
  album : String
  title : String
  genre : String
  date : String
  duration : String
  position : String
deriving DecidableEq

/-- Local variables of `cmus_status` during the parse loop.  Variables the
Python code never initialises before the loop (`playing`, `song_path`,
`duration`, `position`) are `Option`-valued: `none` models "not yet
assigned", and reading such a variable raises NameError. -/
structure ParseSt where
  playing : Option Bool
  song_path : Option String
  artist : String
  album : String
  title : String
  genre : String
  date : String
  duration : Option String
  position : Option String
deriving DecidableEq

/-- One iteration of the `for line in status:` loop of `cmus_status`
(src/main.py lines 90-113).  `line_split[1]` on a too-short line raises
IndexError. -/
def parseLine (st : ParseSt) (line : String) : Except String ParseSt := do
  let line_split := pySplitStr line " "
  let head := line_split.headD ""
  let st ←
    if head = "status" then
      match line_split[1]? with
      | none => Except.error "IndexError"
      | some w => Except.ok { st with playing := some (w == "playing") }
    else Except.ok st
  if head = "file" then
    Except.ok { st with song_path := some (String.mk (line.data.drop 5)) }
  else if head = "tag" then
    match line_split[1]? with
    | none => Except.error "IndexError"
    | some key =>
      let value := pyJoin " " (line_split.drop 2)
      if key = "artist" then Except.ok { st with artist := value }
      else if key = "album" then Except.ok { st with album := value }
      else if key = "title" then Except.ok { st with title := value }
      else if key = "genre" then Except.ok { st with genre := value }
      else if key = "date" then Except.ok { st with date := value }
      else Except.ok st
  else if head = "duration" then
    match (line_split.drop 1)[0]? with
    | none => Except.error "IndexError"
    | some d => Except.ok { st with duration := some d }
  else if head = "position" then
    match (line_split.drop 1)[0]? with
    | none => Except.error "IndexError"
    | some p0 => Except.ok { st with position := some p0 }
  else Except.ok st

/-- Embedding of `cmus_status` (src/main.py lines 80-125).  The subprocess
is abstracted by its observable result: `output` is the decoded stdout and
`error` says whether stderr was nonempty (`if error: return None, None,
None`).  Reading a local that was never assigned (possible for
`song_path`, `duration`, `position`, `playing` when the corresponding
lines are absent from the output) raises NameError, modelled as
`Except.error`.  Note the fallback test compares against the literal
`"Unknown"`, not against `no_data`. -/
def cmus_status (output : String) (error : Bool) (no_data : String) :
    Except String (Option String × Option Bool × Option SongData) := do
  if error then
    return (none, none, none)
  let status := pySplitStr output "\n"
  let st0 : ParseSt :=
    { playing := none, song_path := none, artist := no_data, album := no_data,
      title := no_data, genre := no_data, date := no_data,
      duration := none, position := none }
  let st ← status.foldlM parseLine st0
  -- if artist == "Unknown" or title == "Unknown": artist, title = title_from_path(song_path)
  let artist_title ←
    if st.artist = "Unknown" ∨ st.title = "Unknown" then
      match st.song_path with
      | none => Except.error "NameError: song_path"
      | some p => title_from_path p
    else Except.ok (st.artist, st.title)
  -- building the song_data dict evaluates duration and position
  let duration ←
    match st.duration with
    | none => Except.error "NameError: duration"
    | some d => Except.ok d
  let position ←
    match st.position with
    | none => Except.error "NameError: position"
    | some p0 => Except.ok p0
  -- return song_path, playing, song_data evaluates song_path and playing
  let song_path ←
    match st.song_path with
    | none => Except.error "NameError: song_path"
    | some p => Except.ok p
  let playing ←
    match st.playing with
    | none => Except.error "NameError: playing"
    | some b => Except.ok b
  return (some song_path, some playing, some
    { artist := artist_title.1, album := st.album, title := artist_title.2,
      genre := st.genre, date := st.date, duration := duration, position := position })

/-- A representative `cmus-remote -Q` output: a loaded, playing track with
no tag lines at all. -/
def sampleOut : String :=
  "status playing\nfile /music/Artist - Song.mp3\nduration 200\nposition 10\n"

/-- Embedding of `custom_format` (src/main.py lines 149-165), pure part:
the chained `str.replace` calls, with `%%` first re-written to the
printable sentinel `"/%%/"` and the sentinel collapsed to `"%"` at the
end.  `dur`/`pos` are the already-converted `int(...)` values of the
duration and position fields.  Python evaluates the arguments of the
`%u`/`%p` replacements eagerly, so `int(...)` runs even when those keys
are absent from the template; a non-numeric field raises ValueError
(handled by the `custom_format` wrapper below). -/
def render_chain (template : String) (song_data : SongData) (dur pos : Int) : String :=
  pyReplaceStr
    (pyReplaceStr
      (pyReplaceStr
        (pyReplaceStr
          (pyReplaceStr
            (pyReplaceStr
              (pyReplaceStr
                (pyReplaceStr
                  (pyReplaceStr template "%%" "/%%/")
                  "%a" song_data.artist)
                "%l" song_data.album)
              "%t" song_data.title)
            "%g" song_data.genre)
          "%y" song_data.date)
        "%u" (to_h_m_s dur))
      "%p" (to_h_m_s pos))
    "/%%/" "%"

/-- Failure-aware wrapper of `render_chain`: the two `int(...)` calls run
first (duration, then position), and a ValueError from either aborts the
call. -/
def custom_format (template : String) (song_data : SongData) : Except String String :=
  match pyInt song_data.duration, pyInt song_data.position with
  | Except.error e, _ => Except.error e
  | Except.ok _, Except.error e => Except.error e
  | Except.ok dur, Except.ok pos => Except.ok (render_chain template song_data dur pos)

/-- A concrete well-formed song record used to exercise the renderer and
the button logic (duration and position parse as integers, as every record
produced by a successful `cmus_status` run does). -/
def sampleSong : SongData :=
  { artist := "x%z", album := "Al", title := "5", genre := "G", date := "2020",
    duration := "200", position := "10" }

/-- Embedding of the button promotion performed before the loop
(src/main.py lines 231-236): labels and URLs are promoted independently
from the "two" slot to the "one" slot when the "one" slot is falsy. -/
def promote_buttons (b1 b2 u1 u2 : String) : String × String × String × String :=
  let bp := if b1 = "" then (b2, "") else (b1, b2)
  let up := if u1 = "" then (u2, "") else (u1, u2)
  (bp.1, bp.2, up.1, up.2)

/-- Embedding of the per-tick button construction (src/main.py lines
272-293), applied to already-promoted values: `if button_one and
button_url_one:` builds one or two `(label, url)` entries, otherwise
`buttons = None`. -/
def make_buttons (sd : SongData) (b1 b2 u1 u2 : String) :
    Except String (Option (List (String × String))) :=
  if b1 ≠ "" ∧ u1 ≠ "" then
    if b2 = "" then
      match custom_format b1 sd, custom_format u1 sd with
      | Except.error e, _ => Except.error e
      | _, Except.error e => Except.error e
      | Except.ok l1, Except.ok r1 => Except.ok (some [(l1, r1)])
    else
      match custom_format b1 sd, custom_format u1 sd,
            custom_format b2 sd, custom_format u2 sd with
      | Except.error e, _, _, _ => Except.error e
      | _, Except.error e, _, _ => Except.error e
      | _, _, Except.error e, _ => Except.error e
      | _, _, _, Except.error e => Except.error e
      | Except.ok l1, Except.ok r1, Except.ok l2, Except.ok r2 =>
        Except.ok (some [(l1, r1), (l2, r2)])
  else Except.ok none

/-- Buttons the presence service would receive for a given raw button
configuration: promotion followed by per-tick construction. -/
def buttons_sent (sd : SongData) (b1 b2 u1 u2 : String) :
    Except String (Option (List (String × String))) :=
  let pr := promote_buttons b1 b2 u1 u2
  make_buttons sd pr.1 pr.2.1 pr.2.2.1 pr.2.2.2

/-- Externally visible actions of the main loop: a presence push
(`rpc.update`) and the connection release (`rpc.close`). -/
inductive Action
  | push
  | close
deriving DecidableEq

/-- How a bounded run of the loop ended: ran out of fuel while still
looping, reached `rpc.close()` after a `break`, was interrupted by SIGINT
(`sys.exit()` raising SystemExit, caught by nothing), or died on an
uncaught NameError. -/
inductive ExitStatus
  | fuelOut
  | closed
  | interrupted
  | crashed
deriving DecidableEq

/-- Loop-carried variables of `main` (src/main.py lines 243-251):
`song_path_old`/`playing_old`, the current `song_path`/`playing` from the
last probe, and the tick counter `timer`.  `Option` mirrors Python `None`
(the value `cmus_status` returns on command failure). -/
structure LoopState where
  songPathOld : Option String
  playingOld : Option Bool
  songPath : Option String
  playing : Option Bool
  timer : Nat
deriving DecidableEq

/-- Fixed configuration consumed by the loop.  `updateRpc` and
`checkStatus` are the tick counts `int(rpc_interval / delay)` and
`int(cmus_interval / delay)`; `playingImage`/`pausedImage` decide whether
`available_small_images` is ever assigned (src/main.py lines 228-229). -/
structure MainCfg where
  updateRpc : Nat
  checkStatus : Nat
  playingImage : String
  pausedImage : String
deriving DecidableEq

/-- The local `available_small_images` (src/main.py lines 228-229): it is
assigned (to `True`) only when both image names are truthy; otherwise it is
never assigned, and reading it raises NameError — modelled as `none`. -/
def availableSmallImages (cfg : MainCfg) : Option Bool :=
  if cfg.playingImage ≠ "" ∧ cfg.pausedImage ≠ "" then some true else none

/-- Python falsiness of the `song_path` value (`if not song_path:`):
`None` or the empty string. -/
def pyFalsyPath : Option String → Bool
  | none => true
  | some s => s == ""

/-- Result of one loop iteration: continue with a new state (recording
whether a push happened), `break` out of the loop (reaching
`rpc.close()`), or crash on an uncaught exception. -/
inductive TickResult
  | cont (s : LoopState) (pushed : Bool)
  | broke (s : LoopState)
  | crashed (s : LoopState)
deriving DecidableEq

/-- The `if timer == 0:` body (src/main.py lines 272-315), reached with the
state already updated and `timer = 0`.  Button construction and template
rendering are modelled as succeeding (they do not touch the control flow
studied here; their own behaviour is modelled by `custom_format` /
`buttons_sent`).  Reading `available_small_images` when it was never
assigned (line 295) raises NameError before `rpc.update` is called; a
`BrokenPipeError` from `rpc.update` leads to `break`. -/
def pushPhase (cfg : MainCfg) (pushOkT : Bool) (s : LoopState) : TickResult :=
  match availableSmallImages cfg with
  | none => TickResult.crashed s
  | some _ =>
    if pushOkT then TickResult.cont { s with timer := s.timer + 1 } true
    else TickResult.broke s

/-- One iteration of `while run:` (src/main.py lines 254-327).  `probe` is
what `cmus_status` would return at this tick (both in-loop call sites are
modelled as seeing the same result).  Step 1: at `timer >= update_rpc`
reset the timer and re-probe; step 2: at `timer % check_status == 0`
re-probe; step 3: on a changed `(path, playing)` update the `_old`
variables, reset the timer, and `break` when the new path is falsy;
step 4: at `timer == 0` run the push body; otherwise `timer += 1`. -/
def loopTick (cfg : MainCfg) (probe : Option String × Option Bool) (pushOkT : Bool)
    (s : LoopState) : TickResult :=
  let st1 : Nat × Option String × Option Bool :=
    if cfg.updateRpc ≤ s.timer then (0, probe.1, probe.2)
    else (s.timer, s.songPath, s.playing)
  let st2 : Nat × Option String × Option Bool :=
    if st1.1 % cfg.checkStatus = 0 then (st1.1, probe.1, probe.2) else st1
  if st2.2.1 ≠ s.songPathOld ∨ st2.2.2 ≠ s.playingOld then
    if pyFalsyPath st2.2.1 then
      TickResult.broke ⟨st2.2.1, st2.2.2, st2.2.1, st2.2.2, 0⟩
    else
      pushPhase cfg pushOkT ⟨st2.2.1, st2.2.2, st2.2.1, st2.2.2, 0⟩
  else
    if st2.1 = 0 then
      pushPhase cfg pushOkT ⟨s.songPathOld, s.playingOld, st2.2.1, st2.2.2, st2.1⟩
    else
      TickResult.cont ⟨s.songPathOld, s.playingOld, st2.2.1, st2.2.2, st2.1 + 1⟩ false

/-- Bounded run of the main loop from tick `t`, driven by the environment:
`env t` is the probe result available at tick `t`, `pushOk t` whether
`rpc.update` would succeed, and `sigint` the tick at whose boundary a
SIGINT arrives (its handler calls `sys.exit()`; the resulting SystemExit
is caught by nothing — in particular not by the `except BrokenPipeError`
— so the run ends without `rpc.close()`).  Returns the visible actions,
how the run ended, and the final state.  `rpc.close()` (line 328) runs
exactly when the loop exits by `break`. -/
def runMain (cfg : MainCfg) (env : Nat → Option String × Option Bool)
    (pushOk : Nat → Bool) (sigint : Option Nat) :
    Nat → Nat → LoopState → List Action × ExitStatus × LoopState
  | 0, _, s => ([], ExitStatus.fuelOut, s)
  | fuel + 1, t, s =>
    if sigint = some t then ([], ExitStatus.interrupted, s)
    else
      match loopTick cfg (env t) (pushOk t) s with
      | TickResult.cont s2 pushed =>
        let r := runMain cfg env pushOk sigint fuel (t + 1) s2
        ((if pushed then [Action.push] else []) ++ r.1, r.2)
      | TickResult.broke s2 => ([Action.close], ExitStatus.closed, s2)
      | TickResult.crashed s2 => ([], ExitStatus.crashed, s2)

/-- Number of presence pushes in an action trace. -/
def countPush : List Action → Nat
  | [] => 0
  | Action.push :: rest => countPush rest + 1
  | Action.close :: rest => countPush rest

/-- Number of connection releases in an action trace. -/
def countClose : List Action → Nat
  | [] => 0
  | Action.close :: rest => countClose rest + 1
  | Action.push :: rest => countClose rest

/-- Embedding of `rpc_interval = min(config["interval"], 5)`
(src/main.py line 247). -/
def rpc_interval (interval : Int) : Int := min interval 5

/-- The concrete loop constants of `main` (src/main.py lines 245-249) with
the default images: `delay = 0.1`, `cmus_interval = 2`, the clamped
`rpc_interval = 5`, hence `update_rpc = int(5 / 0.1) = 50` and
`check_status = int(2 / 0.1) = 20` (both float quotients are exact at
these values). -/
def defaultCfg : MainCfg :=
  { updateRpc := 50, checkStatus := 20,
    playingImage := "playing1", pausedImage := "paused1" }

/-- State of the loop when the current and previous probe agree on
`(path, playing)` and the timer reads `k`; `steadyState p pl 0` is exactly
the state on entry to the loop (lines 243-250). -/
def steadyState (p : Option String) (pl : Option Bool) (k : Nat) : LoopState :=
  ⟨p, pl, p, pl, k⟩

/-! ## Helper lemmas -/

theorem prefixMatch_append {p s : List Char} (h : prefixMatch p s = true) :
    ∃ t, p ++ t = s := by
  induction p generalizing s with
  | nil => exact ⟨s, rfl⟩
  | cons x xs ih =>
    cases s with
    | nil => simp [prefixMatch] at h
    | cons y ys =>
      simp only [prefixMatch, Bool.and_eq_true, beq_iff_eq] at h
      obtain ⟨t, ht⟩ := ih h.2
      exact ⟨t, by simp [h.1, ht]⟩

theorem infix_of_prefixMatch {p s : List Char} (h : prefixMatch p s = true) :
    p <:+: s := by
  obtain ⟨t, ht⟩ := prefixMatch_append h
  exact ⟨[], t, by simpa using ht⟩

theorem infix_extend_cons {p r : List Char} {c : Char} (h : p <:+: r) :
    p <:+: c :: r := by
  obtain ⟨u, v, huv⟩ := h
  exact ⟨c :: u, v, by simp [huv]⟩

theorem pyReplaceFuel_no_occurrence (pat rep : List Char) :
    ∀ (fuel : Nat) (s : List Char), ¬ pat <:+: s → pyReplaceFuel pat rep fuel s = s := by
  intro fuel
  induction fuel with
  | zero => intro s _; cases s <;> rfl
  | succ n ih =>
    intro s h
    cases s with
    | nil => rfl
    | cons c rest =>
      rw [pyReplaceFuel, if_neg]
      · rw [ih rest (fun hin => h (infix_extend_cons hin))]
      · intro hpm
        exact h (infix_of_prefixMatch hpm)

theorem pyReplaceStr_no_occurrence {s pat : String} (rep : String)
    (h : ¬ pat.data <:+: s.data) : pyReplaceStr s pat rep = s := by
  unfold pyReplaceStr
  rw [pyReplaceFuel_no_occurrence pat.data rep.data s.data.length s.data h]

theorem infix_trans_sentinel {t : List Char} (h : "/%%/".data <:+: t) :
    "%%".data <:+: t := by
  refine List.IsInfix.trans ?_ h
  exact ⟨['/'], ['/'], by decide⟩

theorem loopTick_steady_mid (p : Option String) (pl : Option Bool) (k : Nat)
    (h1 : 1 ≤ k) (h2 : k ≤ 49) :
    loopTick defaultCfg (p, pl) true (steadyState p pl k) =
      TickResult.cont (steadyState p pl (k + 1)) false := by
  have hA : ¬ ((50 : Nat) ≤ k) := by omega
  have hk : ¬ (k = 0) := by omega
  simp [loopTick, steadyState, defaultCfg, hA, hk]

theorem loopTick_steady_zero (p : Option String) (pl : Option Bool) :
    loopTick defaultCfg (p, pl) true (steadyState p pl 0) =
      TickResult.cont (steadyState p pl 1) true := by
  simp only [loopTick, steadyState, defaultCfg]
  simp
  rfl

theorem runMain_steady (p : Option String) (pl : Option Bool) :
    ∀ (m k t : Nat), 1 ≤ k → k + m ≤ 50 →
      runMain defaultCfg (fun _ => (p, pl)) (fun _ => true) none m t (steadyState p pl k) =
        ([], ExitStatus.fuelOut, steadyState p pl (k + m)) := by
  intro m
  induction m with
  | zero => intro k t _ _; simp [runMain]
  | succ n ih =>
    intro k t h1 h2
    rw [runMain]
    rw [if_neg (by simp)]
    rw [loopTick_steady_mid p pl k h1 (by omega)]
    rw [show k + (n + 1) = k + 1 + n from by omega]
    have hrec := ih (k + 1) (t + 1) (by omega) (by omega)
    simp [hrec]

theorem countClose_append (l1 l2 : List Action) :
    countClose (l1 ++ l2) = countClose l1 + countClose l2 := by
  induction l1 with
  | nil => simp [countClose]
  | cons a r ih => cases a <;> simp [countClose, ih] <;> omega

theorem runMain_close_aux (cfg : MainCfg) (env : Nat → Option String × Option Bool)
    (pushOk : Nat → Bool) (sigint : Option Nat) :
    ∀ (fuel t : Nat) (s : LoopState),
      ((runMain cfg env pushOk sigint fuel t s).2.1 = ExitStatus.closed →
        countClose (runMain cfg env pushOk sigint fuel t s).1 = 1) ∧
      ((runMain cfg env pushOk sigint fuel t s).2.1 = ExitStatus.interrupted →
        countClose (runMain cfg env pushOk sigint fuel t s).1 = 0) := by
  intro fuel
  induction fuel with
  | zero =>
    intro t s
    constructor <;> intro h <;> simp [runMain] at h
  | succ n ih =>
    intro t s
    rw [runMain]
    by_cases hs : sigint = some t
    · rw [if_pos hs]
      constructor <;> intro h
      · simp at h
      · simp [countClose]
    · rw [if_neg hs]
      cases hlt : loopTick cfg (env t) (pushOk t) s with
      | cont s2 pushed =>
        have hih := ih (t + 1) s2
        constructor <;> intro h <;>
          simp only [countClose_append] at * <;>
          cases pushed <;> simp [countClose] at h ⊢ <;>
          first
          | exact hih.1 h
          | exact hih.2 h
      | broke s2 =>
        constructor <;> intro h <;> simp [countClose] at h ⊢
      | crashed s2 =>
        constructor <;> intro h <;> simp [countClose] at h

theorem custom_format_sampleSong_ok (t : String) :
    ∃ r, custom_format t sampleSong = Except.ok r := ⟨_, rfl⟩

theorem make_buttons_none_iff (b1 b2 u1 u2 : String) :
    make_buttons sampleSong b1 b2 u1 u2 = Except.ok none ↔ ¬ (b1 ≠ "" ∧ u1 ≠ "") := by
  by_cases hc : b1 ≠ "" ∧ u1 ≠ ""
  · obtain ⟨r1, hr1⟩ := custom_format_sampleSong_ok b1
    obtain ⟨r2, hr2⟩ := custom_format_sampleSong_ok u1
    obtain ⟨r3, hr3⟩ := custom_format_sampleSong_ok b2
    obtain ⟨r4, hr4⟩ := custom_format_sampleSong_ok u2
    by_cases hb2 : b2 = "" <;>
      simp [make_buttons, hc, hb2, hr1, hr2, hr3, hr4]
  · simp [make_buttons, hc]

theorem make_buttons_length (b1 b2 u1 u2 : String) (l : List (String × String))
    (h : make_buttons sampleSong b1 b2 u1 u2 = Except.ok (some l)) : l.length ≤ 2 := by
  by_cases hc : b1 ≠ "" ∧ u1 ≠ ""
  · obtain ⟨r1, hr1⟩ := custom_format_sampleSong_ok b1
    obtain ⟨r2, hr2⟩ := custom_format_sampleSong_ok u1
    obtain ⟨r3, hr3⟩ := custom_format_sampleSong_ok b2
    obtain ⟨r4, hr4⟩ := custom_format_sampleSong_ok u2
    by_cases hb2 : b2 = "" <;>
      simp [make_buttons, hc, hb2, hr1, hr2, hr3, hr4] at h <;>
      simp [← h]
  · simp [make_buttons, hc] at h

/-! ## Claims -/

/-- C1: the claim says `to_h_m_s` omits the hours segment exactly when
hours == 0 and that `format(0) = "0:00"`, `format(65) = "1:05"`,
`format(3599) = "59:59"`.  The code (in conflict with its own docstring
"clips hours if it is 0") zero-pads `hours` to the string `"00"` before
testing `if hours:`, and a nonempty string is truthy, so the hours
segment is always emitted; this theorem evaluates the function at the
claim's inputs and exhibits the actual outputs. -/
theorem c1_to_h_m_s_hours_never_clipped :
    to_h_m_s 0 = "00:00:00" ∧ to_h_m_s 65 = "00:01:05" ∧
    to_h_m_s 3600 = "01:00:00" ∧ to_h_m_s 3599 = "00:59:59" := by
  refine ⟨?_, ?_, ?_, ?_⟩ <;> decide

/-- C2 counterexample: a run of 51 ticks in which every probe returns the
same `(path, playing)` pair performs two pushes (at ticks 0 and 50, the
latter caused by the `timer >= update_rpc` reset), not exactly one. -/
theorem c2_counterexample_periodic_push :
    countPush (runMain defaultCfg (fun _ => (some "a", some true)) (fun _ => true)
      none 51 0 (steadyState (some "a") (some true) 0)).1 = 2 := by decide

theorem loopTick_steady_change (p p2 : Option String) (pl pl2 : Option Bool) (k : Nat)
    (hk : k % 20 = 0 ∨ 50 ≤ k) (hfalsy : pyFalsyPath p2 = false) (hne : p2 ≠ p) :
    loopTick defaultCfg (p2, pl2) true (steadyState p pl k) =
      TickResult.cont ⟨p2, pl2, p2, pl2, 1⟩ true := by
  rcases hk with hk | hk
  · by_cases h50 : (50 : Nat) ≤ k
    · simp only [loopTick, steadyState, defaultCfg]
      simp [h50, hne, hfalsy, pushPhase]
      rfl
    · simp only [loopTick, steadyState, defaultCfg]
      simp [h50, hk, hne, hfalsy, pushPhase]
      rfl
  · simp only [loopTick, steadyState, defaultCfg]
    simp [hk, hne, hfalsy, pushPhase]
    rfl

/-- C2 amended: pushes are driven by `timer == 0`.  (a) a run of up to
`update_rpc = 50` ticks of identical `(path, playing)` probes performs
exactly one push, at the first tick (beyond 50 ticks the periodic
`timer >= update_rpc` reset adds a push every 50 ticks, refuting the
unbounded claim); (b) a probe tick that sees a different, non-absent path
resets the timer and pushes exactly once at that tick; (c) a tick with an
unchanged probe and `0 < timer < 50` pushes nothing. -/
theorem c2_amended_push_discipline :
    (∀ (p : Option String) (pl : Option Bool) (N : Nat), 1 ≤ N → N ≤ 50 →
      countPush (runMain defaultCfg (fun _ => (p, pl)) (fun _ => true)
        none N 0 (steadyState p pl 0)).1 = 1) ∧
    (∀ (p p2 : Option String) (pl pl2 : Option Bool) (k : Nat),
      (k % 20 = 0 ∨ 50 ≤ k) → pyFalsyPath p2 = false → p2 ≠ p →
      loopTick defaultCfg (p2, pl2) true (steadyState p pl k) =
        TickResult.cont ⟨p2, pl2, p2, pl2, 1⟩ true) ∧
    (∀ (p : Option String) (pl : Option Bool) (k : Nat), 1 ≤ k → k ≤ 49 →
      loopTick defaultCfg (p, pl) true (steadyState p pl k) =
        TickResult.cont (steadyState p pl (k + 1)) false) := by
  refine ⟨?_, ?_, ?_⟩
  · intro p pl N h1 h2
    obtain ⟨m, rfl⟩ : ∃ m, N = m + 1 := ⟨N - 1, by omega⟩
    rw [runMain, if_neg (by simp), loopTick_steady_zero]
    have hrec := runMain_steady p pl m 1 1 (by omega) (by omega)
    simp [hrec, countPush]
  · exact fun p p2 pl pl2 k hk hf hne => loopTick_steady_change p p2 pl pl2 k hk hf hne
  · exact fun p pl k h1 h2 => loopTick_steady_mid p pl k h1 h2

/-- C2 witness: instances of the three parts of the amended claim at
concrete inputs. -/
theorem c2_amended_push_discipline_witness :
    countPush (runMain defaultCfg (fun _ => (some "a", some true)) (fun _ => true)
      none 50 0 (steadyState (some "a") (some true) 0)).1 = 1 ∧
    loopTick defaultCfg (some "b", some true) true (steadyState (some "a") (some true) 20) =
      TickResult.cont ⟨some "b", some true, some "b", some true, 1⟩ true ∧
    loopTick defaultCfg (some "a", some true) true (steadyState (some "a") (some true) 5) =
      TickResult.cont (steadyState (some "a") (some true) 6) false :=
  ⟨c2_amended_push_discipline.1 (some "a") (some true) 50 (by decide) (by decide),
   c2_amended_push_discipline.2.1 (some "a") (some "b") (some true) (some true) 20
     (Or.inl (by decide)) (by decide) (by decide),
   c2_amended_push_discipline.2.2 (some "a") (some true) 5 (by decide) (by decide)⟩

/-- C3 counterexample: with empty stderr and an output containing no
recognized line (here `"x"`), `cmus_status` does not return the absent
`(None, None, None)` triple — it raises NameError on the never-assigned
local `song_path` (reached through the tag-fallback check). -/
theorem c3_counterexample_probe_crash :
    cmus_status "x" false "Unknown" = Except.error "NameError: song_path" ∧
    cmus_status "x" false "Unknown" ≠ Except.ok (none, none, none) := by
  refine ⟨rfl, ?_⟩
  intro h
  rw [show cmus_status "x" false "Unknown" = Except.error "NameError: song_path" from rfl] at h
  exact Except.noConfusion h

/-- C3 amended: when the query command fails (nonempty stderr) the probe
returns the absent triple, for any output and placeholder; but when the
command succeeds with unusable output the probe crashes with NameError
(on `song_path` when the placeholder is the literal `"Unknown"`, on
`duration` when the placeholder is empty) instead of returning absent. -/
theorem c3_amended_error_vs_crash :
    (∀ (out no_data : String), cmus_status out true no_data = Except.ok (none, none, none)) ∧
    cmus_status "" false "Unknown" = Except.error "NameError: song_path" ∧
    cmus_status "" false "" = Except.error "NameError: duration" :=
  ⟨fun _ _ => rfl, rfl, rfl⟩

/-- C4 counterexample: a SIGINT (modelled at a tick boundary; its handler
calls `sys.exit()`, raising SystemExit, which no handler catches) ends the
run with zero `rpc.close()` calls, refuting "released exactly once on
every exit path". -/
theorem c4_counterexample_interrupt_skips_close :
    countClose (runMain defaultCfg (fun _ => (some "a", some true)) (fun _ => true)
      (some 3) 10 0 (steadyState (some "a") (some true) 0)).1 = 0 ∧
    (runMain defaultCfg (fun _ => (some "a", some true)) (fun _ => true)
      (some 3) 10 0 (steadyState (some "a") (some true) 0)).2.1 =
      ExitStatus.interrupted := by
  refine ⟨?_, ?_⟩ <;> decide

/-- C4 amended: every run that ends by `break` (normal loop termination:
player lost or service link lost) performs exactly one `rpc.close()`, but
a run ended by SIGINT performs none — the uncaught SystemExit skips the
`rpc.close()` after the loop. -/
theorem c4_amended_close_on_break_paths :
    (∀ (cfg : MainCfg) (env : Nat → Option String × Option Bool)
        (pushOk : Nat → Bool) (sigint : Option Nat) (fuel t : Nat) (s : LoopState),
      (runMain cfg env pushOk sigint fuel t s).2.1 = ExitStatus.closed →
      countClose (runMain cfg env pushOk sigint fuel t s).1 = 1) ∧
    (∀ (cfg : MainCfg) (env : Nat → Option String × Option Bool)
        (pushOk : Nat → Bool) (sigint : Option Nat) (fuel t : Nat) (s : LoopState),
      (runMain cfg env pushOk sigint fuel t s).2.1 = ExitStatus.interrupted →
      countClose (runMain cfg env pushOk sigint fuel t s).1 = 0) :=
  ⟨fun cfg env pushOk sigint fuel t s =>
      (runMain_close_aux cfg env pushOk sigint fuel t s).1,
   fun cfg env pushOk sigint fuel t s =>
      (runMain_close_aux cfg env pushOk sigint fuel t s).2⟩

/-- Probe environment for the C4 witness: a loaded track at tick 0, then
the player disappears. -/
def c4WitnessEnv : Nat → Option String × Option Bool :=
  fun t => if t = 0 then (some "a", some true) else (none, none)

/-- C4 witness: a run that loses the player at tick 20 closes exactly
once; an interrupted run closes zero times. -/
theorem c4_amended_close_on_break_paths_witness :
    countClose (runMain defaultCfg c4WitnessEnv (fun _ => true) none 21 0
      (steadyState (some "a") (some true) 0)).1 = 1 ∧
    countClose (runMain defaultCfg (fun _ => (some "a", some true)) (fun _ => true)
      (some 0) 5 0 (steadyState (some "a") (some true) 0)).1 = 0 :=
  ⟨c4_amended_close_on_break_paths.1 defaultCfg c4WitnessEnv (fun _ => true) none 21 0
      (steadyState (some "a") (some true) 0) (by decide),
   c4_amended_close_on_break_paths.2 defaultCfg (fun _ => (some "a", some true))
      (fun _ => true) (some 0) 5 0 (steadyState (some "a") (some true) 0) (by decide)⟩

/-- C5 counterexample: with the suppress-unknown placeholder `""` and a
track with no tags, the probe leaves artist and title as `""` — the
path-derived `("Artist", "Song")` the claim predicts is not produced,
because the fallback test compares against the literal `"Unknown"`, not
the configured placeholder. -/
theorem c5_counterexample_empty_placeholder :
    cmus_status sampleOut false "" =
      Except.ok (some "/music/Artist - Song.mp3", some true, some
        { artist := "", album := "", title := "", genre := "",
          date := "", duration := "200", position := "10" }) ∧
    cmus_status sampleOut false "" ≠
      Except.ok (some "/music/Artist - Song.mp3", some true, some
        { artist := "Artist", album := "", title := "Song", genre := "",
          date := "", duration := "200", position := "10" }) := by
  refine ⟨rfl, ?_⟩
  intro h
  rw [show cmus_status sampleOut false "" =
      Except.ok (some "/music/Artist - Song.mp3", some true, some
        { artist := "", album := "", title := "", genre := "",
          date := "", duration := "200", position := "10" }) from rfl] at h
  simp at h

/-- C5 amended: the path fallback fires only when artist or title equals
the literal `"Unknown"` (the default placeholder), in which case the
stated rule applies — `"/music/Artist - Song.mp3"` yields
`("Artist", "Song")` via the `" - "` split, and a separatorless
`"/a/b.mp3"` falls back to the last two path segments; with the empty
placeholder the tags stay empty and no derivation happens. -/
theorem c5_amended_literal_unknown_fallback :
    cmus_status sampleOut false "Unknown" =
      Except.ok (some "/music/Artist - Song.mp3", some true, some
        { artist := "Artist", album := "Unknown", title := "Song", genre := "Unknown",
          date := "Unknown", duration := "200", position := "10" }) ∧
    title_from_path "/music/Artist - Song.mp3" = Except.ok ("Artist", "Song") ∧
    title_from_path "/a/b.mp3" = Except.ok ("a", "b") ∧
    cmus_status sampleOut false "" =
      Except.ok (some "/music/Artist - Song.mp3", some true, some
        { artist := "", album := "", title := "", genre := "",
          date := "", duration := "200", position := "10" }) :=
  ⟨rfl, rfl, rfl, rfl⟩

/-- C6: escape safety of the renderer.  (a) `%%%t` with title `"5"`
renders as `"%5"` for every record whose duration and position parse;
(b) a template containing none of the recognized tokens (`%%`, `%a`,
`%l`, `%t`, `%g`, `%y`, `%u`, `%p`) is returned unchanged; (c) a literal
`%%` collapses to a single `%` even when the substituted metadata itself
contains a `%` character (`%%%a` with artist `"x%z"` gives `"%x%z"`). -/
theorem c6_escape_safety :
    (∀ (sd : SongData) (u v : Int), sd.title = "5" →
      pyInt sd.duration = Except.ok u → pyInt sd.position = Except.ok v →
      custom_format "%%%t" sd = Except.ok "%5") ∧
    (∀ (t : String) (sd : SongData) (u v : Int),
      pyInt sd.duration = Except.ok u → pyInt sd.position = Except.ok v →
      ¬ "%%".data <:+: t.data → ¬ "%a".data <:+: t.data → ¬ "%l".data <:+: t.data →
      ¬ "%t".data <:+: t.data → ¬ "%g".data <:+: t.data → ¬ "%y".data <:+: t.data →
      ¬ "%u".data <:+: t.data → ¬ "%p".data <:+: t.data →
      custom_format t sd = Except.ok t) ∧
    custom_format "%%%a" sampleSong = Except.ok "%x%z" := by
  refine ⟨?_, ?_, rfl⟩
  · intro sd u v ht hu hv
    unfold custom_format
    rw [hu, hv]
    show Except.ok (render_chain "%%%t" sd u v) = Except.ok "%5"
    unfold render_chain
    rw [ht]
    rw [show pyReplaceStr "%%%t" "%%" "/%%/" = "/%%/%t" from rfl,
      show pyReplaceStr "/%%/%t" "%a" sd.artist = "/%%/%t" from rfl,
      show pyReplaceStr "/%%/%t" "%l" sd.album = "/%%/%t" from rfl,
      show pyReplaceStr "/%%/%t" "%t" "5" = "/%%/5" from rfl,
      show pyReplaceStr "/%%/5" "%g" sd.genre = "/%%/5" from rfl,
      show pyReplaceStr "/%%/5" "%y" sd.date = "/%%/5" from rfl,
      show pyReplaceStr "/%%/5" "%u" (to_h_m_s u) = "/%%/5" from rfl,
      show pyReplaceStr "/%%/5" "%p" (to_h_m_s v) = "/%%/5" from rfl,
      show pyReplaceStr "/%%/5" "/%%/" "%" = "%5" from rfl]
  · intro t sd u v hu hv h1 h2 h3 h4 h5 h6 h7 h8
    have hsent : ¬ "/%%/".data <:+: t.data := fun hin => h1 (infix_trans_sentinel hin)
    unfold custom_format
    rw [hu, hv]
    show Except.ok (render_chain t sd u v) = Except.ok t
    unfold render_chain
    rw [pyReplaceStr_no_occurrence "/%%/" h1, pyReplaceStr_no_occurrence sd.artist h2,
      pyReplaceStr_no_occurrence sd.album h3, pyReplaceStr_no_occurrence sd.title h4,
      pyReplaceStr_no_occurrence sd.genre h5, pyReplaceStr_no_occurrence sd.date h6,
      pyReplaceStr_no_occurrence (to_h_m_s u) h7, pyReplaceStr_no_occurrence (to_h_m_s v) h8,
      pyReplaceStr_no_occurrence "%" hsent]

/-- C6 witness: the three parts at concrete inputs — `sampleSong` has
title `"5"` and numeric duration/position, and `"plain text"` contains no
recognized token. -/
theorem c6_escape_safety_witness :
    custom_format "%%%t" sampleSong = Except.ok "%5" ∧
    custom_format "plain text" sampleSong = Except.ok "plain text" :=
  ⟨c6_escape_safety.1 sampleSong 200 10 rfl rfl rfl,
   c6_escape_safety.2.1 "plain text" sampleSong 200 10 rfl rfl
     (by decide) (by decide) (by decide) (by decide)
     (by decide) (by decide) (by decide) (by decide)⟩

/-- C7 counterexample: with a first label `"A"`, a second label `"B"`, no
first URL and a second URL `"U"`, the claim says no buttons are sent; the
code promotes the URLs independently of the labels and sends two buttons,
pairing the first label with the promoted second URL and leaving the
second button with an empty URL. -/
theorem c7_counterexample_mixed_button_config :
    buttons_sent sampleSong "A" "B" "" "U" =
      Except.ok (some [("A", "U"), ("B", "")]) ∧
    buttons_sent sampleSong "A" "B" "" "U" ≠ Except.ok none := by
  refine ⟨rfl, ?_⟩
  intro h
  rw [show buttons_sent sampleSong "A" "B" "" "U" =
      Except.ok (some [("A", "U"), ("B", "")]) from rfl] at h
  simp at h

/-- C7 amended: at most two buttons are ever sent; labels and URLs are
promoted independently (an empty first slot takes the second slot's
value), and buttons are sent iff the promoted first label and first URL
are both nonempty — equivalently, nothing is sent iff both labels are
empty or both URLs are empty; a lone second button (label and URL both in
the second slots) is promoted to a single first button. -/
theorem c7_amended_button_promotion :
    (∀ (b1 b2 u1 u2 : String) (l : List (String × String)),
      buttons_sent sampleSong b1 b2 u1 u2 = Except.ok (some l) → l.length ≤ 2) ∧
    (∀ (b1 b2 u1 u2 : String),
      buttons_sent sampleSong b1 b2 u1 u2 = Except.ok none ↔
        (b1 = "" ∧ b2 = "") ∨ (u1 = "" ∧ u2 = "")) ∧
    (∀ (b2 u2 : String), b2 ≠ "" → u2 ≠ "" →
      ∃ pr, buttons_sent sampleSong "" b2 "" u2 = Except.ok (some [pr])) := by
  refine ⟨?_, ?_, ?_⟩
  · intro b1 b2 u1 u2 l h
    unfold buttons_sent at h
    exact make_buttons_length _ _ _ _ l h
  · intro b1 b2 u1 u2
    unfold buttons_sent promote_buttons
    by_cases hb : b1 = "" <;> by_cases hu : u1 = "" <;>
      simp [hb, hu, make_buttons_none_iff] <;> tauto
  · intro b2 u2 hb2 hu2
    obtain ⟨r1, hr1⟩ := custom_format_sampleSong_ok b2
    obtain ⟨r2, hr2⟩ := custom_format_sampleSong_ok u2
    refine ⟨(r1, r2), ?_⟩
    unfold buttons_sent promote_buttons
    simp [make_buttons, hb2, hu2, hr1, hr2]

/-- C7 witness: instances of the three parts — the mixed configuration
sends two buttons (≤ 2), the all-empty configuration sends none, and a
lone second button is promoted to a single first button. -/
theorem c7_amended_button_promotion_witness :
    ([("A", "U"), ("B", "")] : List (String × String)).length ≤ 2 ∧
    (buttons_sent sampleSong "" "" "" "" = Except.ok none ↔
      (("" : String) = "" ∧ ("" : String) = "") ∨
        (("" : String) = "" ∧ ("" : String) = "")) ∧
    ∃ pr, buttons_sent sampleSong "" "B" "" "U" = Except.ok (some [pr]) :=
  ⟨c7_amended_button_promotion.1 "A" "B" "" "U" [("A", "U"), ("B", "")] rfl,
   c7_amended_button_promotion.2.1 "" "" "" "",
   c7_amended_button_promotion.2.2 "B" "U" (by decide) (by decide)⟩

/-- C8: the effective push interval is `min(configured, 5)` seconds
(src/main.py line 247), in particular 15 is clamped to 5; at the tick
level the loop with the resulting `update_rpc = 50` pushes once per 50
ticks (= 5 seconds of `delay = 0.1`) when nothing changes: 1 push in 50
ticks, 2 in 100, 3 in 101. -/
theorem c8_interval_clamp :
    (∀ interval : Int, rpc_interval interval = min interval 5) ∧
    rpc_interval 15 = 5 ∧
    countPush (runMain defaultCfg (fun _ => (some "a", some true)) (fun _ => true)
      none 50 0 (steadyState (some "a") (some true) 0)).1 = 1 ∧
    countPush (runMain defaultCfg (fun _ => (some "a", some true)) (fun _ => true)
      none 100 0 (steadyState (some "a") (some true) 0)).1 = 2 ∧
    countPush (runMain defaultCfg (fun _ => (some "a", some true)) (fun _ => true)
      none 101 0 (steadyState (some "a") (some true) 0)).1 = 3 :=
  ⟨fun _ => rfl, by decide, by decide, by decide, by decide⟩

/-- C9: the renderer's sentinel is the printable string `"/%%/"`; metadata
containing it is corrupted — rendering `%a` with artist `"x/%%/y"`
produces `"x%y"`, not the artist itself, so the renderer is not faithful
for such metadata. -/
theorem c9_sentinel_collision :
    custom_format "%a" { sampleSong with artist := "x/%%/y" } = Except.ok "x%y" ∧
    custom_format "%a" { sampleSong with artist := "x/%%/y" } ≠ Except.ok "x/%%/y" := by
  refine ⟨rfl, ?_⟩
  intro h
  rw [show custom_format "%a" { sampleSong with artist := "x/%%/y" } =
      Except.ok "x%y" from rfl] at h
  simp at h

/-- C10: if either the playing-image or the paused-image value is the
empty string, `available_small_images` is never assigned; the first push
tick (tick 0: `timer == 0`) reads it and the loop dies with an
unbound-name error before performing any update — no actions are emitted
and the run ends `crashed`. -/
theorem c10_missing_image_crash :
    ∀ (cfg : MainCfg) (env : Nat → Option String × Option Bool) (pushOk : Nat → Bool)
      (p : Option String) (pl : Option Bool) (n : Nat),
      (cfg.playingImage = "" ∨ cfg.pausedImage = "") →
      pyFalsyPath (env 0).1 = false →
      (runMain cfg env pushOk none (n + 1) 0 (steadyState p pl 0)).1 = [] ∧
      (runMain cfg env pushOk none (n + 1) 0 (steadyState p pl 0)).2.1 =
        ExitStatus.crashed := by
  intro cfg env pushOk p pl n himg hfal
  have hav : availableSmallImages cfg = none := by
    unfold availableSmallImages
    rcases himg with h | h <;> simp [h]
  have htick : ∃ s2, loopTick cfg (env 0) (pushOk 0) (steadyState p pl 0) =
      TickResult.crashed s2 := by
    by_cases hch : (env 0).1 ≠ p ∨ (env 0).2 ≠ pl
    · refine ⟨⟨(env 0).1, (env 0).2, (env 0).1, (env 0).2, 0⟩, ?_⟩
      unfold loopTick steadyState pushPhase
      by_cases hup : cfg.updateRpc ≤ 0 <;> simp [hup, hch, hfal, hav]
    · refine ⟨⟨p, pl, (env 0).1, (env 0).2, 0⟩, ?_⟩
      unfold loopTick steadyState pushPhase
      by_cases hup : cfg.updateRpc ≤ 0 <;> simp [hup, hch, hfal, hav]
  obtain ⟨s2, htick⟩ := htick
  rw [runMain, if_neg (by simp), htick]
  exact ⟨rfl, rfl⟩

/-- C10 witness: with an empty playing image, concrete probes and fuel 3,
the run emits no actions and crashes. -/
theorem c10_missing_image_crash_witness :
    (runMain { updateRpc := 50, checkStatus := 20, playingImage := "", pausedImage := "paused1" }
      (fun _ => (some "a", some true)) (fun _ => true) none (2 + 1) 0
      (steadyState (some "a") (some true) 0)).1 = [] ∧
    (runMain { updateRpc := 50, checkStatus := 20, playingImage := "", pausedImage := "paused1" }
      (fun _ => (some "a", some true)) (fun _ => true) none (2 + 1) 0
      (steadyState (some "a") (some true) 0)).2.1 = ExitStatus.crashed :=
  c10_missing_image_crash
    { updateRpc := 50, checkStatus := 20, playingImage := "", pausedImage := "paused1" }
    (fun _ => (some "a", some true)) (fun _ => true) (some "a") (some true) 2
    (Or.inl rfl) (by decide)


end CmusRpc
